import Mathlib

/-!
Verification of the mirror-proxy request-dispatch and tunnel engine
(src/main.rs) against its natural-language specification.

The Rust program is shallowly embedded: name resolution, the upstream
HTTP client, the connection-upgrade outcome and the TCP connect outcome
are parameters (they are system or library effects), while the control
flow of `to_addr`, `proxy`, `tunnel` and the configuration merge in
`main` is translated function by function. Observable effects of one
CONNECT exchange (response transmission, upgrade, connect, relay, log
lines) are modelled as an event trace; per hyper's documented upgrade
contract (quoted in the source comment: the connection can be upgraded
only after the client received the empty 200 response), the response
transmission event precedes every event of the spawned tunnel task.
-/

namespace MirrorProxy

/-- A concrete socket address, as produced by system name resolution. -/
structure SocketAddr where
  ip : String
  port : Nat
deriving DecidableEq, Repr

/-- Opaque I/O or transport error token (`std::io::Error` / `hyper::Error`). -/
abbrev IoErr := String

/-- Environment model of `ToSocketAddrs::to_socket_addrs`: for a
`host:port` string, either an error or the (possibly empty) candidate list. -/
abbrev Resolver := String → Except IoErr (List SocketAddr)

/-- Embedding of `to_addr` (src/main.rs lines 154-168): on resolution
error return `none`, otherwise the first candidate of the iterator. -/
def to_addr (resolve : Resolver) (host : String) : Option SocketAddr :=
  match resolve host with
  | .error _ => none
  | .ok addrs =>
    match addrs.head? with
    | some v => some v
    | none => none

/-- HTTP method; the dispatcher only distinguishes CONNECT from the rest. -/
inductive Method where
  | CONNECT
  | GET
  | POST
  | other (name : String)
deriving DecidableEq, Repr

/-- Inbound request value: method, target URI (rendered), its authority
component (`uri.authority()`), headers and body. -/
structure Request where
  method : Method
  uri : String
  authority : Option String
  headers : List (String × String)
  body : String
deriving DecidableEq, Repr

/-- Outbound response value. `Response::new(b)` has status 200 and no headers. -/
structure Response where
  status : Nat
  headers : List (String × String)
  body : String
deriving DecidableEq, Repr

/-- `Response::new(Body::empty())`: status 200 OK, empty body. -/
def okEmptyResponse : Response :=
  { status := 200, headers := [], body := "" }

/-- The 400 response built in the CONNECT failure arm:
`Response::new(Body::from(format!("cannot resolve remote uri ...", uri)))`
with the status then set to BAD_REQUEST. The Rust debug rendering of the
URI is abstracted as the URI string itself. -/
def badRequestResponse (uri : String) : Response :=
  { status := 400, headers := [], body := "cannot resolve remote uri " ++ uri }

/-- Environment model of the upstream `hyper::Client`: a function from the
forwarded request to the origin's response or a transport error. -/
abbrev UpstreamClient := Request → Except IoErr Response

/-- Embedding of the non-CONNECT arm `client.request(req).await.and_then(|resp| Ok(resp))`:
the upstream result is piped through an identity `and_then`. -/
def forwardUpstream (client : UpstreamClient) (req : Request) : Except IoErr Response :=
  (client req).bind (fun resp => .ok resp)

/-- Result of one `proxy` dispatch: the returned `Result<Response, hyper::Error>`
and, when the CONNECT arm spawned a tunnel task, the destination address
handed to that task (`spawned = some addr` iff `tokio::task::spawn` ran). -/
structure DispatchResult where
  response : Except IoErr Response
  spawned : Option SocketAddr
deriving Repr

/-- Embedding of `proxy` (src/main.rs lines 170-235). CONNECT: resolve the
authority via `to_addr`; on success spawn the tunnel task and return the
empty 200; otherwise return 400 with the explanatory body. Non-CONNECT:
forward through the upstream client. -/
def proxy (client : UpstreamClient) (resolve : Resolver) (req : Request) :
    DispatchResult :=
  if req.method = Method.CONNECT then
    let addr :=
      match req.authority with
      | some v => to_addr resolve v
      | none => none
    match addr with
    | some a => { response := .ok okEmptyResponse, spawned := some a }
    | none => { response := .ok (badRequestResponse req.uri), spawned := none }
  else
    { response := forwardUpstream client req, spawned := none }

/-- One direction of the relay (`tokio::io::copy`), as an asynchronous
computation: `polls` is the number of scheduler rounds before the copy
future is ready, `out` the bytes copied at EOF or the I/O error. -/
structure CopyDir where
  polls : Nat
  out : Except IoErr Nat
deriving Repr

/-- Completion value of `futures_util::future::try_join` on the two copy
directions: both successes are paired; the first error to become ready is
returned (ties go to the first argument, which is polled first). -/
def tryJoinResult (a b : CopyDir) : Except IoErr (Nat × Nat) :=
  match a.out, b.out with
  | .error ea, .error eb => if a.polls ≤ b.polls then .error ea else .error eb
  | .error ea, .ok _ => .error ea
  | .ok _, .error eb => .error eb
  | .ok na, .ok nb => .ok (na, nb)

/-- Scheduler round at which the `try_join` future completes: with two
successes it waits for both; as soon as an error becomes ready it
completes and the still-pending other future is dropped (cancelled). -/
def tryJoinRound (a b : CopyDir) : Nat :=
  match a.out, b.out with
  | .error _, .error _ => min a.polls b.polls
  | .error _, .ok _ => a.polls
  | .ok _, .error _ => b.polls
  | .ok _, .ok _ => max a.polls b.polls

/-- Observable events of one CONNECT exchange. -/
inductive Event where
  /-- the HTTP response was fully transmitted to the client -/
  | respSent (status : Nat) (body : String)
  /-- `hyper::upgrade::on` resolved: the connection is in raw-byte mode -/
  | upgraded
  /-- the upgrade failed; only an error line is logged -/
  | upgradeFailed
  /-- `TcpStream::connect(addr)` succeeded: the tunnel is established -/
  | connected (a : SocketAddr)
  /-- the byte-count summary logged when both relay directions succeed -/
  | tunnelSummary (fromClient fromServer : Nat)
  /-- the error line logged when the relay join returns an error -/
  | tunnelFailed
  /-- the error line logged when `tunnel` itself returns `Err` -/
  | ioError
  /-- the closing info line of the spawned task -/
  | connClosed
deriving DecidableEq, Repr

/-- Embedding of `tunnel` (src/main.rs lines 238-263): connect to the
destination, propagating a connect error via `?`; then join the two copy
directions, log the byte counts (success) or the join error, and return
`Ok(())` either way. Returns the function result and its emitted events. -/
def tunnel (a : SocketAddr) (connect : Except IoErr Unit) (c2s s2c : CopyDir) :
    Except IoErr Unit × List Event :=
  match connect with
  | .error e => (.error e, [])
  | .ok _ =>
    match tryJoinResult c2s s2c with
    | .ok amounts =>
      (.ok (), [.connected a, .tunnelSummary amounts.1 amounts.2])
    | .error _ => (.ok (), [.connected a, .tunnelFailed])

/-- Events of the task spawned in the CONNECT arm (src/main.rs lines
211-221): await the upgrade; on success run `tunnel`, log an error line if
it returned `Err`, then log the connection-closed line; on upgrade failure
log an error line only. -/
def spawnedTask (a : SocketAddr) (upgrade : Except IoErr Unit)
    (connect : Except IoErr Unit) (c2s s2c : CopyDir) : List Event :=
  match upgrade with
  | .error _ => [.upgradeFailed]
  | .ok _ =>
    let r := tunnel a connect c2s s2c
    [Event.upgraded] ++ r.2 ++
      (match r.1 with
       | .error _ => [Event.ioError]
       | .ok _ => []) ++ [Event.connClosed]

/-- Event trace of one full CONNECT exchange. The returned response is
transmitted by hyper first; only then can `hyper::upgrade::on` resolve
(the upgrade contract quoted in the source comment of src/main.rs lines
193-198), so the spawned task's events follow the transmission event. -/
def connectExchange (client : UpstreamClient) (resolve : Resolver)
    (req : Request) (upgrade : Except IoErr Unit) (connect : Except IoErr Unit)
    (c2s s2c : CopyDir) : List Event :=
  let d := proxy client resolve req
  (match d.response with
   | .ok r => [Event.respSent r.status r.body]
   | .error _ => []) ++
  (match d.spawned with
   | some a => spawnedTask a upgrade connect c2s s2c
   | none => [])

/-- True of response-transmission events. -/
def isRespSent : Event → Bool
  | .respSent _ _ => true
  | _ => false

/-- Scans a trace and checks the CONNECT handshake ordering: every
`upgraded` event is preceded by some response transmission, and every
`connected` (tunnel-established) event is preceded by `upgraded`. -/
def handshakeOrdered (sawResp sawUpgrade : Bool) : List Event → Bool
  | [] => true
  | e :: tr =>
    match e with
    | .respSent _ _ => handshakeOrdered true sawUpgrade tr
    | .upgraded => sawResp && handshakeOrdered sawResp true tr
    | .connected _ => sawUpgrade && handshakeOrdered sawResp sawUpgrade tr
    | _ => handshakeOrdered sawResp sawUpgrade tr

/-- YAML scalar values as seen by the config reader. Sequences and
mappings are collapsed into `composite` — the program never looks inside
them (they fail both the number match and string deserialization). -/
inductive Yaml where
  | str (s : String)
  | num (n : Int)
  | boolV (b : Bool)
  | nullV
  | composite
deriving DecidableEq, Repr

/-- Built-in default port (src/main.rs line 65). -/
def DEFAULT_PORT : Nat := 8080

/-- Built-in default ip (src/main.rs line 63). -/
def DEFAULT_IP : String := "127.0.0.1"

/-- Accumulate a decimal number over characters; any non-digit fails. -/
def digitsToNat (acc : Nat) : List Char → Option Nat
  | [] => some acc
  | c :: cs =>
    if c.isDigit then digitsToNat (acc * 10 + (c.toNat - 48)) cs else none

/-- Rust `str::parse::<u16>()`: an optional leading plus sign, then at
least one ASCII digit, value at most 65535; anything else is `Err`. -/
def parseU16 (s : String) : Option Nat :=
  let cs :=
    match s.data with
    | c :: rest => if c = '+' then rest else c :: rest
    | [] => []
  match cs with
  | [] => none
  | _ :: _ =>
    match digitsToNat 0 cs with
    | some n => if n < 65536 then some n else none
    | none => none

/-- The config-file port extraction (src/main.rs lines 105-116):
`Value::Number`, then `as_u64` (non-negative integer), then
`u16::try_from`; every other shape yields `None`. -/
def configPortU16 : Yaml → Option Nat
  | .num n => if 0 ≤ n ∧ n < 65536 then some n.toNat else none
  | _ => none

/-- The port merge of `main` (src/main.rs lines 55-76 and 102-128).
`cli` and `env` are the command-line and environment values; clap's
`Arg::env` makes `value_of` return the CLI value, else the environment
value, and `is_present` true when either exists. The config file is
consulted only when `is_present` is false. Returns the effective port and
whether an invalid-port warning was emitted. -/
def effectivePort (cli env : Option String) (cfgPort : Option Yaml) :
    Nat × Bool :=
  let cliEnv := cli <|> env
  let argResult : Nat × Bool :=
    match cliEnv with
    | some v =>
      match parseU16 v with
      | some n => (n, false)
      | none => (DEFAULT_PORT, true)
    | none => (DEFAULT_PORT, false)
  if cliEnv.isSome then argResult
  else
    match cfgPort with
    | some v =>
      match configPortU16 v with
      | some p => (p, argResult.2)
      | none => (argResult.1, true)
    | none => argResult

/-- `serde_yaml::from_value::<String>`: succeeds exactly on a YAML string. -/
def fromValueString : Yaml → Except String String
  | .str s => .ok s
  | _ => .error "invalid type"

/-- Outcome of the ip merge: a value, or a panic of the startup thread. -/
inductive IpOutcome where
  | ok (ip : String)
  | panicked
deriving DecidableEq, Repr

/-- The ip merge of `main` (src/main.rs lines 63-64 and 95-100): the
CLI/environment value if present, else the config `ip` deserialized as a
string with `.unwrap()` — a non-string config value panics — else the
default ip. -/
def effectiveIp (cli env : Option String) (cfgIp : Option Yaml) : IpOutcome :=
  let cliEnv := cli <|> env
  let ip := cliEnv.getD DEFAULT_IP
  if cliEnv.isSome then .ok ip
  else
    match cfgIp with
    | some v =>
      match fromValueString v with
      | .ok s => .ok s
      | .error _ => .panicked
    | none => .ok ip

/-! ## Helper lemmas -/

/-- The spawned tunnel task never transmits a response: all its events are
upgrade, connect, relay and log events. -/
theorem spawnedTask_countP_resp (a : SocketAddr) (upgrade connect : Except IoErr Unit)
    (c2s s2c : CopyDir) :
    List.countP isRespSent (spawnedTask a upgrade connect c2s s2c) = 0 := by
  cases upgrade with
  | error e => rfl
  | ok u =>
    cases connect with
    | error e => rfl
    | ok u2 =>
      cases htj : tryJoinResult c2s s2c with
      | ok p => simp [spawnedTask, tunnel, htj, List.countP, List.countP.go, isRespSent]
      | error e => simp [spawnedTask, tunnel, htj, List.countP, List.countP.go, isRespSent]

/-- Once the response is transmitted, the spawned task's events respect the
handshake order: `upgraded` first, `connected` only after `upgraded`. -/
theorem spawnedTask_handshake (a : SocketAddr) (upgrade connect : Except IoErr Unit)
    (c2s s2c : CopyDir) :
    handshakeOrdered true false (spawnedTask a upgrade connect c2s s2c) = true := by
  cases upgrade with
  | error e => rfl
  | ok u =>
    cases connect with
    | error e => rfl
    | ok u2 =>
      cases htj : tryJoinResult c2s s2c with
      | ok p => simp [spawnedTask, tunnel, htj, handshakeOrdered]
      | error e => simp [spawnedTask, tunnel, htj, handshakeOrdered]

/-- On the CONNECT success path the dispatch result is the empty 200 plus a
spawned task for the resolved address. -/
theorem proxy_connect_ok (client : UpstreamClient) (resolve : Resolver)
    (req : Request) (h : String) (a : SocketAddr)
    (hm : req.method = Method.CONNECT) (ha : req.authority = some h)
    (hr : to_addr resolve h = some a) :
    proxy client resolve req = { response := .ok okEmptyResponse, spawned := some a } := by
  simp [proxy, hm, ha, hr]

/-! ## Claims -/

/-- Claim C1: for every CONNECT request whose target authority resolves to
at least one socket address, `proxy` returns exactly one response, with
status 200 OK and an empty body, and the exchange trace holds no other
response transmission. -/
theorem connect_ack_is_single_200 (client : UpstreamClient) (resolve : Resolver)
    (req : Request) (upgrade connect : Except IoErr Unit) (c2s s2c : CopyDir)
    (h : String) (a : SocketAddr)
    (hm : req.method = Method.CONNECT) (ha : req.authority = some h)
    (hr : to_addr resolve h = some a) :
    (proxy client resolve req).response = .ok okEmptyResponse ∧
    okEmptyResponse.status = 200 ∧ okEmptyResponse.body = "" ∧
    List.countP isRespSent
      (connectExchange client resolve req upgrade connect c2s s2c) = 1 := by
  have hp := proxy_connect_ok client resolve req h a hm ha hr
  refine ⟨by rw [hp], rfl, rfl, ?_⟩
  have : connectExchange client resolve req upgrade connect c2s s2c =
      [Event.respSent 200 ""] ++ spawnedTask a upgrade connect c2s s2c := by
    simp [connectExchange, hp, okEmptyResponse]
  rw [this, List.countP_append, spawnedTask_countP_resp]
  rfl

/-- Claim C1 witness. -/
theorem connect_ack_is_single_200_witness :
    (proxy (fun _ => .error "unused")
      (fun _ => .ok [SocketAddr.mk "93.184.216.34" 443])
      (Request.mk Method.CONNECT "example.com:443" (some "example.com:443") [] "")).response
      = .ok okEmptyResponse :=
  (connect_ack_is_single_200 (fun _ => .error "unused")
    (fun _ => .ok [SocketAddr.mk "93.184.216.34" 443])
    (Request.mk Method.CONNECT "example.com:443" (some "example.com:443") [] "")
    (.ok ()) (.ok ()) (CopyDir.mk 1 (.ok 5)) (CopyDir.mk 1 (.ok 7))
    "example.com:443" (SocketAddr.mk "93.184.216.34" 443) rfl rfl rfl).1

/-- Claim C2: for a CONNECT request with a valid resolvable authority, the
exchange trace transmits the acknowledgment exactly once, as its first
event, every `upgraded` event comes after a response transmission, and
every tunnel-established event comes after `upgraded`. -/
theorem connect_handshake_order (client : UpstreamClient) (resolve : Resolver)
    (req : Request) (upgrade connect : Except IoErr Unit) (c2s s2c : CopyDir)
    (h : String) (a : SocketAddr)
    (hm : req.method = Method.CONNECT) (ha : req.authority = some h)
    (hr : to_addr resolve h = some a) :
    List.countP isRespSent
      (connectExchange client resolve req upgrade connect c2s s2c) = 1 ∧
    (connectExchange client resolve req upgrade connect c2s s2c).head? =
      some (Event.respSent 200 "") ∧
    handshakeOrdered false false
      (connectExchange client resolve req upgrade connect c2s s2c) = true := by
  have hp := proxy_connect_ok client resolve req h a hm ha hr
  have htr : connectExchange client resolve req upgrade connect c2s s2c =
      [Event.respSent 200 ""] ++ spawnedTask a upgrade connect c2s s2c := by
    simp [connectExchange, hp, okEmptyResponse]
  refine ⟨?_, ?_, ?_⟩
  · rw [htr, List.countP_append, spawnedTask_countP_resp]; rfl
  · rw [htr]; rfl
  · rw [htr]
    show handshakeOrdered true false (spawnedTask a upgrade connect c2s s2c) = true
    exact spawnedTask_handshake a upgrade connect c2s s2c

/-- Claim C2 witness. -/
theorem connect_handshake_order_witness :
    handshakeOrdered false false
      (connectExchange (fun _ => .error "unused")
        (fun _ => .ok [SocketAddr.mk "93.184.216.34" 443])
        (Request.mk Method.CONNECT "example.com:443" (some "example.com:443") [] "")
        (.ok ()) (.ok ()) (CopyDir.mk 1 (.ok 5)) (CopyDir.mk 1 (.ok 7))) = true :=
  (connect_handshake_order (fun _ => .error "unused")
    (fun _ => .ok [SocketAddr.mk "93.184.216.34" 443])
    (Request.mk Method.CONNECT "example.com:443" (some "example.com:443") [] "")
    (.ok ()) (.ok ()) (CopyDir.mk 1 (.ok 5)) (CopyDir.mk 1 (.ok 7))
    "example.com:443" (SocketAddr.mk "93.184.216.34" 443) rfl rfl rfl).2.2

/-- Claim C3: for every CONNECT request whose authority is absent or does
not resolve, `proxy` returns exactly one 400 Bad Request carrying the
unresolvable URI in its body, and the exchange trace holds only that
response: no upgrade and no tunnel establishment happen. -/
theorem connect_bad_request (client : UpstreamClient) (resolve : Resolver)
    (req : Request) (upgrade connect : Except IoErr Unit) (c2s s2c : CopyDir)
    (hm : req.method = Method.CONNECT)
    (hfail : ∀ v, req.authority = some v → to_addr resolve v = none) :
    (proxy client resolve req).response = .ok (badRequestResponse req.uri) ∧
    (badRequestResponse req.uri).status = 400 ∧
    (badRequestResponse req.uri).body = "cannot resolve remote uri " ++ req.uri ∧
    (proxy client resolve req).spawned = none ∧
    connectExchange client resolve req upgrade connect c2s s2c =
      [Event.respSent 400 ("cannot resolve remote uri " ++ req.uri)] ∧
    Event.upgraded ∉ connectExchange client resolve req upgrade connect c2s s2c ∧
    ∀ x, Event.connected x ∉ connectExchange client resolve req upgrade connect c2s s2c := by
  have haddr : (match req.authority with
      | some v => to_addr resolve v
      | none => none) = none := by
    cases hcase : req.authority with
    | none => rfl
    | some v => exact hfail v hcase
  have hp : proxy client resolve req =
      { response := .ok (badRequestResponse req.uri), spawned := none } := by
    simp [proxy, hm, haddr]
  have htr : connectExchange client resolve req upgrade connect c2s s2c =
      [Event.respSent 400 ("cannot resolve remote uri " ++ req.uri)] := by
    simp [connectExchange, hp, badRequestResponse]
  refine ⟨by rw [hp], rfl, rfl, by rw [hp], htr, ?_, ?_⟩
  · rw [htr]; simp
  · intro x; rw [htr]; simp

/-- Claim C3 witness. -/
theorem connect_bad_request_witness :
    (proxy (fun _ => .error "unused") (fun _ => .error "resolution failed")
      (Request.mk Method.CONNECT "nohost:99999" (some "nohost:99999") [] "")).response
      = .ok (badRequestResponse "nohost:99999") :=
  (connect_bad_request (fun _ => .error "unused") (fun _ => .error "resolution failed")
    (Request.mk Method.CONNECT "nohost:99999" (some "nohost:99999") [] "")
    (.ok ()) (.ok ()) (CopyDir.mk 1 (.ok 0)) (CopyDir.mk 1 (.ok 0))
    rfl (fun _ _ => rfl)).1

/-- Claim C5: for every non-CONNECT request the dispatcher hands the
request itself, unchanged, to the upstream client, returns the upstream
response verbatim, spawns no tunnel, and propagates an upstream transport
error as its own failure. -/
theorem proxy_forwards_unmodified (client : UpstreamClient) (resolve : Resolver)
    (req : Request) (hm : req.method ≠ Method.CONNECT) :
    (proxy client resolve req).response = client req ∧
    (proxy client resolve req).spawned = none ∧
    (∀ e, client req = .error e → (proxy client resolve req).response = .error e) := by
  have hf : forwardUpstream client req = client req := by
    unfold forwardUpstream
    cases client req <;> rfl
  have hp : proxy client resolve req =
      { response := forwardUpstream client req, spawned := none } := by
    simp [proxy, hm]
  refine ⟨by rw [hp]; exact hf, by rw [hp], ?_⟩
  intro e he
  rw [hp]
  show forwardUpstream client req = .error e
  rw [hf, he]

/-- Claim C5 witness: a stub origin returning `hello` is passed through. -/
theorem proxy_forwards_unmodified_witness :
    (proxy (fun r => .ok (Response.mk 200 r.headers "hello")) (fun _ => .error "unused")
      (Request.mk Method.GET "http://example.org/" none [("host", "example.org")] "")).response
      = .ok (Response.mk 200 [("host", "example.org")] "hello") :=
  (proxy_forwards_unmodified (fun r => .ok (Response.mk 200 r.headers "hello"))
    (fun _ => .error "unused")
    (Request.mk Method.GET "http://example.org/" none [("host", "example.org")] "")
    (by decide)).1

/-- Claim C6: `to_addr` returns the first candidate produced by system
name resolution, and returns `none` exactly when resolution errors or
yields an empty candidate list. -/
theorem to_addr_first_candidate (resolve : Resolver) (host : String) :
    (∀ a rest, resolve host = .ok (a :: rest) → to_addr resolve host = some a) ∧
    (to_addr resolve host = none ↔
      (∃ e, resolve host = .error e) ∨ resolve host = .ok []) := by
  constructor
  · intro a rest h
    simp [to_addr, h]
  · constructor
    · intro h
      cases hr : resolve host with
      | error e => exact .inl ⟨e, rfl⟩
      | ok l =>
        cases l with
        | nil => exact .inr rfl
        | cons a rest => simp [to_addr, hr] at h
    · rintro (⟨e, he⟩ | he) <;> simp [to_addr, he]

/-- Claim C6 witness. -/
theorem to_addr_first_candidate_witness :
    to_addr (fun _ => .ok [SocketAddr.mk "93.184.216.34" 443, SocketAddr.mk "10.0.0.1" 443])
      "example.com:443" = some (SocketAddr.mk "93.184.216.34" 443) :=
  (to_addr_first_candidate
    (fun _ => .ok [SocketAddr.mk "93.184.216.34" 443, SocketAddr.mk "10.0.0.1" 443])
    "example.com:443").1 (SocketAddr.mk "93.184.216.34" 443)
    [SocketAddr.mk "10.0.0.1" 443] rfl

/-- Claim C9: when the CONNECT authority resolves but the destination TCP
connect fails, the client still gets the 200 acknowledgment, the trace
holds no other response (in particular no error response), and the connect
failure shows up only as the spawned task's error log line. -/
theorem connect_failure_only_logged (client : UpstreamClient) (resolve : Resolver)
    (req : Request) (e : IoErr) (c2s s2c : CopyDir)
    (h : String) (a : SocketAddr)
    (hm : req.method = Method.CONNECT) (ha : req.authority = some h)
    (hr : to_addr resolve h = some a) :
    (proxy client resolve req).response = .ok okEmptyResponse ∧
    connectExchange client resolve req (.ok ()) (.error e) c2s s2c =
      [Event.respSent 200 "", Event.upgraded, Event.ioError, Event.connClosed] ∧
    (∀ s b, Event.respSent s b ∈
        connectExchange client resolve req (.ok ()) (.error e) c2s s2c →
      s = 200 ∧ b = "") := by
  have hp := proxy_connect_ok client resolve req h a hm ha hr
  have htr : connectExchange client resolve req (.ok ()) (.error e) c2s s2c =
      [Event.respSent 200 "", Event.upgraded, Event.ioError, Event.connClosed] := by
    simp [connectExchange, hp, okEmptyResponse, spawnedTask, tunnel]
  refine ⟨by rw [hp], htr, ?_⟩
  intro s b hmem
  rw [htr] at hmem
  simp at hmem
  exact hmem

/-- Claim C9 witness. -/
theorem connect_failure_only_logged_witness :
    connectExchange (fun _ => .error "unused")
      (fun _ => .ok [SocketAddr.mk "10.1.1.1" 443])
      (Request.mk Method.CONNECT "down.example:443" (some "down.example:443") [] "")
      (.ok ()) (.error "connection refused") (CopyDir.mk 1 (.ok 0)) (CopyDir.mk 1 (.ok 0)) =
      [Event.respSent 200 "", Event.upgraded, Event.ioError, Event.connClosed] :=
  (connect_failure_only_logged (fun _ => .error "unused")
    (fun _ => .ok [SocketAddr.mk "10.1.1.1" 443])
    (Request.mk Method.CONNECT "down.example:443" (some "down.example:443") [] "")
    "connection refused" (CopyDir.mk 1 (.ok 0)) (CopyDir.mk 1 (.ok 0))
    "down.example:443" (SocketAddr.mk "10.1.1.1" 443) rfl rfl rfl).2.1

/-- Claim C4 counterexample: with the client-to-server direction erroring
immediately and the server-to-client direction needing five more rounds to
finish, `tunnel` returns `Ok(())` — not the direction's error, and with no
byte counts in the result — and the join completes at round 0, before the
other direction finishes (it is dropped, not allowed to finish). -/
theorem tunnel_result_counterexample :
    (tunnel (SocketAddr.mk "10.0.0.1" 443) (.ok ())
      (CopyDir.mk 0 (.error "connection reset")) (CopyDir.mk 5 (.ok 10))).1 = .ok () ∧
    tryJoinResult (CopyDir.mk 0 (.error "connection reset")) (CopyDir.mk 5 (.ok 10)) =
      .error "connection reset" ∧
    tryJoinRound (CopyDir.mk 0 (.error "connection reset")) (CopyDir.mk 5 (.ok 10)) = 0 ∧
    (0 : Nat) < 5 :=
  ⟨rfl, rfl, rfl, by decide⟩

/-- Claim C4 as amended: `tunnel` propagates a connect error; after a
successful connect it returns `Ok(())` no matter how the relay ends. The
inner `try_join` yields the pair of byte counts and completes at the later
direction's round when both directions succeed; when a direction errors
the join's value is that error and it completes at the erroring
direction's round, cutting short a still-pending other direction instead
of letting it finish. -/
theorem tunnel_join_behavior (a : SocketAddr) (connect : Except IoErr Unit)
    (c2s s2c : CopyDir) :
    (∀ e, connect = .error e → (tunnel a connect c2s s2c).1 = .error e) ∧
    (∀ u, connect = .ok u → (tunnel a connect c2s s2c).1 = .ok ()) ∧
    (∀ na nb, c2s.out = .ok na → s2c.out = .ok nb →
      tryJoinResult c2s s2c = .ok (na, nb) ∧
      tryJoinRound c2s s2c = max c2s.polls s2c.polls) ∧
    (∀ e nb, c2s.out = .error e → s2c.out = .ok nb →
      tryJoinResult c2s s2c = .error e ∧ tryJoinRound c2s s2c = c2s.polls) ∧
    (∀ e na, c2s.out = .ok na → s2c.out = .error e →
      tryJoinResult c2s s2c = .error e ∧ tryJoinRound c2s s2c = s2c.polls) := by
  refine ⟨?_, ?_, ?_, ?_, ?_⟩
  · intro e he; rw [he]; rfl
  · intro u hu
    rw [hu]
    show (match tryJoinResult c2s s2c with
      | .ok amounts => ((.ok () : Except IoErr Unit),
          [Event.connected a, Event.tunnelSummary amounts.1 amounts.2])
      | .error _ => (.ok (), [Event.connected a, Event.tunnelFailed])).1 = .ok ()
    cases tryJoinResult c2s s2c <;> rfl
  · intro na nb h1 h2
    constructor <;> simp [tryJoinResult, tryJoinRound, h1, h2]
  · intro e nb h1 h2
    constructor <;> simp [tryJoinResult, tryJoinRound, h1, h2]
  · intro e na h1 h2
    constructor <;> simp [tryJoinResult, tryJoinRound, h1, h2]

/-- Claim C4 amended witness. -/
theorem tunnel_join_behavior_witness :
    tryJoinResult (CopyDir.mk 2 (.ok 40)) (CopyDir.mk 7 (.ok 40000)) = .ok (40, 40000) ∧
    tryJoinRound (CopyDir.mk 2 (.ok 40)) (CopyDir.mk 7 (.ok 40000)) = 7 :=
  (tunnel_join_behavior (SocketAddr.mk "10.0.0.1" 443) (.ok ())
    (CopyDir.mk 2 (.ok 40)) (CopyDir.mk 7 (.ok 40000))).2.2.1 40 40000 rfl rfl

/-- Claim C7: the effective port follows the precedence CLI flag, then
environment variable, then config-file value, then the built-in default
8080, when each present value is a valid port. -/
theorem port_precedence (cli env : Option String) (cfg : Option Yaml) :
    (∀ s n, cli = some s → parseU16 s = some n →
      (effectivePort cli env cfg).1 = n) ∧
    (∀ s n, cli = none → env = some s → parseU16 s = some n →
      (effectivePort cli env cfg).1 = n) ∧
    (∀ v p, cli = none → env = none → cfg = some v → configPortU16 v = some p →
      (effectivePort cli env cfg).1 = p) ∧
    (cli = none → env = none → cfg = none →
      (effectivePort cli env cfg).1 = DEFAULT_PORT) := by
  refine ⟨?_, ?_, ?_, ?_⟩
  · intro s n hcli hp
    simp [effectivePort, hcli, Option.orElse, hp]
  · intro s n hcli henv hp
    simp [effectivePort, hcli, henv, Option.orElse, hp]
  · intro v p hcli henv hcfg hp
    simp [effectivePort, hcli, henv, hcfg, Option.orElse, hp]
  · intro hcli henv hcfg
    simp [effectivePort, hcli, henv, hcfg, Option.orElse]

/-- Claim C7 witness: the four precedence levels on concrete values. -/
theorem port_precedence_witness :
    (effectivePort (some "3128") (some "9000") (some (Yaml.num 7000))).1 = 3128 ∧
    (effectivePort none (some "9000") (some (Yaml.num 7000))).1 = 9000 ∧
    (effectivePort none none (some (Yaml.num 7000))).1 = 7000 ∧
    (effectivePort none none none).1 = DEFAULT_PORT :=
  ⟨(port_precedence (some "3128") (some "9000") (some (Yaml.num 7000))).1
      "3128" 3128 rfl (by decide),
   (port_precedence none (some "9000") (some (Yaml.num 7000))).2.1
      "9000" 9000 rfl rfl (by decide),
   (port_precedence none none (some (Yaml.num 7000))).2.2.1
      (Yaml.num 7000) 7000 rfl rfl rfl (by decide),
   (port_precedence none none none).2.2.2 rfl rfl rfl⟩

/-- Claim C8 counterexample: with an invalid CLI port, a valid environment
port 9000 and a valid config port 7000, the effective port is the default
8080 — the code does not fall back to the next-lower-precedence source. -/
theorem port_invalid_cli_counterexample :
    parseU16 "80a0" = none ∧
    parseU16 "9000" = some 9000 ∧
    configPortU16 (Yaml.num 7000) = some 7000 ∧
    effectivePort (some "80a0") (some "9000") (some (Yaml.num 7000)) = (8080, true) ∧
    (8080 : Nat) ≠ 9000 := by
  refine ⟨by decide, by decide, by decide, by decide, by decide⟩

/-- Claim C8 as amended: an invalid (non-numeric or out-of-range) port at
the CLI or environment level is rejected with a warning and the effective
port falls back directly to the built-in default 8080, skipping the
config-file value; an invalid config-file port likewise warns and leaves
the default in effect. -/
theorem port_invalid_falls_to_default (cli env : Option String) (cfg : Option Yaml) :
    (∀ s, (cli <|> env) = some s → parseU16 s = none →
      effectivePort cli env cfg = (DEFAULT_PORT, true)) ∧
    (∀ v, cli = none → env = none → cfg = some v → configPortU16 v = none →
      effectivePort cli env cfg = (DEFAULT_PORT, true)) := by
  constructor
  · intro s hs hp
    simp [effectivePort, hs, hp]
  · intro v hcli henv hcfg hp
    simp [effectivePort, hcli, henv, hcfg, Option.orElse, hp]

/-- Claim C8 amended witness. -/
theorem port_invalid_falls_to_default_witness :
    effectivePort (some "65536") (some "9000") (some (Yaml.num 7000)) =
      (DEFAULT_PORT, true) ∧
    effectivePort none none (some (Yaml.num 70000)) = (DEFAULT_PORT, true) :=
  ⟨(port_invalid_falls_to_default (some "65536") (some "9000")
      (some (Yaml.num 7000))).1 "65536" rfl (by decide),
   (port_invalid_falls_to_default none none (some (Yaml.num 70000))).2
      (Yaml.num 70000) rfl rfl rfl (by decide)⟩

/-- Claim C10: with no CLI or environment ip and a config `ip` value that
is not a YAML string, the startup code panics on the `unwrap` instead of
warning and falling back to the default ip. -/
theorem config_ip_nonstring_panics (v : Yaml)
    (hv : ∀ s, v ≠ Yaml.str s) :
    effectiveIp none none (some v) = IpOutcome.panicked := by
  cases v with
  | str s => exact absurd rfl (hv s)
  | num n => rfl
  | boolV b => rfl
  | nullV => rfl
  | composite => rfl

/-- Claim C10 witness: a numeric `ip` value panics the startup. -/
theorem config_ip_nonstring_panics_witness :
    effectiveIp none none (some (Yaml.num 5)) = IpOutcome.panicked :=
  config_ip_nonstring_panics (Yaml.num 5) (fun _ h => Yaml.noConfusion h)

end MirrorProxy
